import Mathlib

/-!
Shallow embedding of the client-side session/state core of
`src/static/js/main.js` (kanoon_kompanion): configuration constants, file
validation, the chat session store (`AppState`), the API client
(`apiCall` / `cancelAllRequests`), and the handlers
`handleDocumentUpload`, `sendChatMessage`, `clearChatSession`,
`loadExistingSession`, together with theorems settling the frozen claims.

Modelling conventions:
- JS strings are `String`, byte sizes are `Nat`.
- A JS value that may be `undefined`/`null` is an `Option`; JS truthiness
  of such a string value (`null`, `undefined` and `""` are falsy) is
  `jsTruthy`, and `x || d` on strings is `jsOr` / `jsStrOr`.
- DOM rendering is out of scope; handlers return the new `AppState`
  fields, the toast notifications they emit, whether the network call was
  issued, and (for chat) the appended chat bubbles.
- The server response envelope and the gateway error taxonomy follow
  `apiCall` (main.js lines 445-483).
-/

namespace Kanoon

/-- CONFIG (main.js lines 2-16). -/
structure Config where
  maxFileSize : Nat
  allowedFileTypes : List String
  maxFiles : Nat
  toastDuration : Nat
  apiTimeout : Nat
deriving DecidableEq

/-- `CONFIG` constant: 10 MiB max size, four allowed extensions, 5 files,
4000 ms toast duration, 30000 ms `apiTimeout` (declared at line 15). -/
def CONFIG : Config :=
  { maxFileSize := 10 * 1024 * 1024
    allowedFileTypes := [".pdf", ".doc", ".docx", ".txt"]
    maxFiles := 5
    toastDuration := 4000
    apiTimeout := 30000 }

/-- A member of a JS `FileList`: its `name` and `size` in bytes. -/
structure JsFile where
  name : String
  size : Nat
deriving DecidableEq

/-- JS `String.prototype.split` with separator `"."`, over the character
list: `"" → [""]`, `"a.b" → ["a","b"]`, `"a." → ["a",""]`. -/
def jsSplitDot : List Char → List (List Char)
  | [] => [[]]
  | c :: cs =>
    match jsSplitDot cs with
    | [] => [[c]]
    | r :: rs => if c = '.' then [] :: r :: rs else (c :: r) :: rs

/-- `'.' + file.name.split('.').pop().toLowerCase()` (main.js line 314):
the text after the final dot, lowercased, with a dot re-attached. For a
dotless name, `split` yields the whole name, so the "extension" is the
whole lowercased name preceded by a dot. -/
def fileExtension (name : String) : String :=
  String.mk ('.' :: ((jsSplitDot name.data).getLastD []).map Char.toLower)

/-- Error message for a missing selection (main.js line 299). -/
def msgNoFiles : String := "Please select at least one file."

/-- Error message for too many files (main.js line 304). -/
def msgTooMany (maxFiles count : Nat) : String :=
  "Maximum " ++ toString maxFiles ++ " files allowed. You selected " ++
    toString count ++ "."

/-- Error message for an oversize file (main.js line 310);
`formatFileSize(CONFIG.maxFileSize)` evaluates to `"10 MB"`. -/
def msgTooLarge (name : String) : String :=
  "File \"" ++ name ++ "\" is too large. Maximum size is 10 MB."

/-- Error message for a disallowed extension (main.js line 316);
`CONFIG.allowedFileTypes.join(', ')` is `".pdf, .doc, .docx, .txt"`. -/
def msgBadType (name : String) : String :=
  "File \"" ++ name ++
    "\" has an unsupported format. Allowed formats: .pdf, .doc, .docx, .txt"

/-- Error message for an empty file (main.js line 321). -/
def msgEmptyFile (name : String) : String :=
  "File \"" ++ name ++ "\" is empty."

/-- The errors the `for` loop of `validateFiles` pushes for one file, in
push order: size, then extension, then zero-byte (main.js lines 307-323). -/
def fileErrors (file : JsFile) : List String :=
  (if file.size > CONFIG.maxFileSize then [msgTooLarge file.name] else []) ++
  (if CONFIG.allowedFileTypes.contains (fileExtension file.name)
    then [] else [msgBadType file.name]) ++
  (if file.size = 0 then [msgEmptyFile file.name] else [])

/-- `validateFiles(files, maxFiles)` (main.js lines 295-326): an empty
selection short-circuits with a single error; otherwise the count error
(if any) is pushed first, then the per-file errors in order. -/
def validateFiles (files : List JsFile) (maxFiles : Nat) : List String :=
  if files.length = 0 then [msgNoFiles]
  else
    (if files.length > maxFiles then [msgTooMany maxFiles files.length] else []) ++
    files.flatMap fileErrors

/-- One entry of `conversation_history`: either a document-upload record
or a question/answer turn (spec §3; consumed at main.js lines 675-682). -/
inductive ConversationEntry
  | documentUpload (filenames : List String)
  | qa (question : String) (answer : String)
deriving DecidableEq

/-- The `result` object of a QA-chat server response (main.js lines
649-663, 723-729): every field may be absent (`none` = JS `undefined`). -/
structure QaResult where
  session : Option String
  conversation_history : Option (List ConversationEntry)
  uploaded_files : Option (List String)
  latest_answer : Option String
deriving DecidableEq

/-- The uniform response envelope `{success, result?, error?}` (spec §6).
`result` is modelled as always-present with absent fields, which is
observationally equivalent for the handlers modelled here. -/
structure ServerResponse where
  success : Bool
  result : QaResult
  error : Option String
deriving DecidableEq

/-- The error a rejected `apiCall` promise carries (main.js lines
461-472): non-2xx status, network failure (fetch rejected), cancellation
(AbortError, rewrapped at line 470), or malformed JSON. -/
inductive GatewayError
  | http (status : Nat) (statusText : String)
  | network (msg : String)
  | cancelled
  | protocol (msg : String)
deriving DecidableEq

/-- `error.message` as the callers' catch blocks read it: the AbortError
rewrap carries exactly "Request was cancelled" (main.js line 470). -/
def GatewayError.message : GatewayError → String
  | .http status statusText => "HTTP " ++ toString status ++ ": " ++ statusText
  | .network msg => msg
  | .cancelled => "Request was cancelled"
  | .protocol msg => msg

/-- How an awaited `apiCall` settles for its caller: the resolved
envelope, or the thrown `GatewayError`. A `ServerResponse` with
`success = false` resolves (it is valid JSON under a 2xx status). -/
abbrev ApiOutcome := Except GatewayError ServerResponse

/-- Toast severities (main.js lines 182-188). -/
inductive Severity
  | success | error | warning | info
deriving DecidableEq

/-- One toast notification shown to the user. -/
structure Notification where
  message : String
  severity : Severity
deriving DecidableEq

/-- `Toast.success` (main.js line 183). -/
def Toast.success (m : String) : Notification := ⟨m, Severity.success⟩

/-- `Toast.error` (main.js line 184). -/
def Toast.error (m : String) : Notification := ⟨m, Severity.error⟩

/-- `Toast.warning` (main.js line 185). -/
def Toast.warning (m : String) : Notification := ⟨m, Severity.warning⟩

/-- `Toast.info` (main.js line 186). -/
def Toast.info (m : String) : Notification := ⟨m, Severity.info⟩

/-- The session-store slice of `AppState` (main.js lines 19-24):
`currentChatSession` starts `null`; `currentConversationHistory` starts
`[]` but `sendChatMessage` can store an absent field, so it is an
`Option` with `none` = JS `undefined`. -/
structure ChatState where
  currentChatSession : Option String
  currentConversationHistory : Option (List ConversationEntry)
deriving DecidableEq

/-- The initial `AppState` session fields (main.js lines 20-21). -/
def initialChatState : ChatState := ⟨none, some []⟩

/-- JS truthiness of a possibly-absent string: `null`/`undefined`/`""`
are falsy. -/
def jsTruthy : Option String → Bool
  | none => false
  | some s => !(s = "")

/-- JS `x || d` where `x` is a possibly-absent string. -/
def jsOr (x : Option String) (d : String) : String :=
  match x with
  | none => d
  | some s => if s = "" then d else s

/-- JS `s || d` on present strings (only `""` is falsy). -/
def jsStrOr (s d : String) : String := if s = "" then d else s

/-- JS `String.prototype.trim`: strip leading and trailing whitespace. -/
def jsTrim (s : String) : String :=
  String.mk
    (((s.data.dropWhile Char.isWhitespace).reverse.dropWhile
        Char.isWhitespace).reverse)

/-- `switchToChatInterface(result)` restricted to the session store
(main.js lines 653-655): adopts `result.session` as-is and
`result.conversation_history || []` (an absent history becomes `[]`). -/
def switchToChatInterface (result : QaResult) : ChatState :=
  { currentChatSession := result.session
    currentConversationHistory := some (result.conversation_history.getD []) }

/-- `resetChatInterface()` restricted to the session store (main.js lines
808-810): session cleared, history emptied. -/
def resetChatInterface : ChatState := ⟨none, some []⟩

/-- What a handler run produces besides DOM changes: whether the
`apiCall` was issued, the session store afterwards, and the toasts
emitted, in order. -/
structure HandlerResult where
  networkCalled : Bool
  state : ChatState
  notifications : List Notification
deriving DecidableEq

/-- `handleDocumentUpload` (main.js lines 601-647) as a function of the
selected files, the prior session store, and how the `apiCall` to the
`qaChat` endpoint would settle. Guards: an empty selection and a
non-empty `validateFiles` result both return before any network call.
On `data.success` the store adopts the result via
`switchToChatInterface`; on `success:false` and on a thrown error the
store is untouched and an error toast is shown. -/
def handleDocumentUpload (files : List JsFile) (st : ChatState)
    (out : ApiOutcome) : HandlerResult :=
  if files.length = 0 then
    ⟨false, st, [Toast.error "Please select files to upload."]⟩
  else
    let errs := validateFiles files CONFIG.maxFiles
    if errs.length > 0 then
      ⟨false, st, errs.map Toast.error⟩
    else
      match out with
      | .ok data =>
        if data.success then
          ⟨true, switchToChatInterface data.result,
            [Toast.success
              "Documents uploaded successfully! You can now chat with your documents."]⟩
        else
          ⟨true, st, [Toast.error (jsOr data.error "Upload failed. Please try again.")]⟩
      | .error e =>
        ⟨true, st, [Toast.error (jsStrOr e.message "Network error. Please try again.")]⟩

/-- A `sendChatMessage` run: additionally records the chat bubbles
appended via `appendChatMessage` as (sender, text) pairs. -/
structure ChatSendResult where
  networkCalled : Bool
  state : ChatState
  notifications : List Notification
  chatMessages : List (String × String)
deriving DecidableEq

/-- `sendChatMessage` (main.js lines 694-743) as a function of the input
field value, the prior session store, and how the `apiCall` would
settle. Guards: a question empty after trimming warns and returns; a
falsy `currentChatSession` errors and returns — both before the network
call and before any chat bubble is appended. On success the store takes
`result.session` and `result.conversation_history` verbatim (no `|| []`
fallback here, unlike upload); on `success:false` or a thrown error the
store is untouched, an apology bubble is appended and an error toast is
shown. -/
def sendChatMessage (input : String) (st : ChatState)
    (out : ApiOutcome) : ChatSendResult :=
  let question := jsTrim input
  if question = "" then
    ⟨false, st, [Toast.warning "Please enter a question"], []⟩
  else if !(jsTruthy st.currentChatSession) then
    ⟨false, st, [Toast.error "Please upload documents first"], []⟩
  else
    match out with
    | .ok data =>
      if data.success then
        ⟨true,
         { currentChatSession := data.result.session
           currentConversationHistory := data.result.conversation_history },
         [],
         [("user", question),
          ("bot", jsOr data.result.latest_answer "I\x27ve processed your request.")]⟩
      else
        ⟨true, st, [Toast.error (jsOr data.error "Request failed")],
         [("user", question),
          ("bot",
           "I apologize, but I\x27m having trouble processing your request. Please try again.")]⟩
    | .error e =>
      ⟨true, st,
       [Toast.error (jsStrOr e.message "Network error - please try again")],
       [("user", question),
        ("bot",
         "I\x27m experiencing connection issues. Please check your internet and try again.")]⟩

/-- `clearChatSession` (main.js lines 768-793) as a function of the prior
session store, the user's answer to the `confirm(...)` prompt, and how
the `apiCall` to the `qaClear` endpoint would settle. Guards: a falsy
`currentChatSession` warns and returns; a declined confirmation returns
silently — both before any network call. On `data.success` the store is
reset via `resetChatInterface`; otherwise it is untouched. -/
def clearChatSession (st : ChatState) (confirmAnswer : Bool)
    (out : ApiOutcome) : HandlerResult :=
  if !(jsTruthy st.currentChatSession) then
    ⟨false, st, [Toast.warning "No active chat session to clear"]⟩
  else if !confirmAnswer then
    ⟨false, st, []⟩
  else
    match out with
    | .ok data =>
      if data.success then
        ⟨true, resetChatInterface, [Toast.success "Chat session cleared"]⟩
      else
        ⟨true, st, [Toast.error (jsOr data.error "Failed to clear session")]⟩
    | .error e =>
      ⟨true, st, [Toast.error (jsStrOr e.message "Error clearing chat session")]⟩

/-- `loadExistingSession` (main.js lines 817-828): on a successful
response with a truthy `result.session` the store adopts the result and
an info toast appears; any thrown error (including cancellation) is only
logged to the console — no toast, no store change. -/
def loadExistingSession (st : ChatState) (out : ApiOutcome) :
    ChatState × List Notification :=
  match out with
  | .ok data =>
    if data.success && jsTruthy data.result.session then
      (switchToChatInterface data.result, [Toast.info "Previous chat session restored"])
    else (st, [])
  | .error _ => (st, [])

/-- `requestId = Date.now().toString()` (main.js line 447), as a function
of the millisecond clock reading at the moment the call is issued. -/
def requestId (now : Nat) : String := toString now

/-- The `AppState.abortControllers` JS `Map`, insertion-ordered, keyed by
request id; the value is the identity of the `AbortController` attached
to that call. -/
abbrev AbortMap := List (String × Nat)

/-- JS `Map.set`: replace in place when the key exists, else append. -/
def mapSet (m : AbortMap) (k : String) (v : Nat) : AbortMap :=
  if (m.map Prod.fst).contains k then
    m.map (fun p => if p.1 = k then (k, v) else p)
  else m ++ [(k, v)]

/-- JS `Map.delete`. -/
def mapDelete (m : AbortMap) (k : String) : AbortMap :=
  m.filter (fun p => !(p.1 = k))

/-- The gateway's shared mutable state: the pending-request map, plus the
set of controller identities whose `abort()` has been called. -/
structure GatewayState where
  controllers : AbortMap
  aborted : List Nat
deriving DecidableEq

/-- The registration step of `apiCall` (main.js lines 446-449): a fresh
controller `ctrl` is stored under `Date.now().toString()`. -/
def apiCallRegister (g : GatewayState) (now ctrl : Nat) : GatewayState :=
  ⟨mapSet g.controllers (requestId now) ctrl, g.aborted⟩

/-- The `finally` step of `apiCall` (main.js line 474): the entry under
this call's request id is deleted, on every settlement path. -/
def apiCallFinally (g : GatewayState) (now : Nat) : GatewayState :=
  ⟨mapDelete g.controllers (requestId now), g.aborted⟩

/-- `cancelAllRequests()` (main.js lines 478-483): abort every controller
currently in the map, then clear the map. -/
def cancelAllRequests (g : GatewayState) : GatewayState :=
  ⟨[], g.aborted ++ g.controllers.map Prod.snd⟩

/-- How the awaited `fetch` (plus `response.json()`) behaves for one
call, absent an abort: it resolves with an HTTP status and a body that
may or may not parse as the envelope, it rejects (network failure), or —
since `apiCall` attaches only the abort signal and no timer
(`CONFIG.apiTimeout` is referenced nowhere in main.js) — it may simply
never settle. -/
inductive FetchBehavior
  | resolves (ok : Bool) (status : Nat) (statusText : String)
      (body : Option ServerResponse)
  | rejects (msg : String)
  | neverSettles
deriving DecidableEq

/-- How `apiCall` settles (main.js lines 451-476) given whether this
call's controller was aborted and how the fetch behaves: `none` means
the `await` never completes and the caller pends forever. An abort makes
the fetch reject with `AbortError`, which the catch rewraps as
`cancelled`; a non-2xx response throws `http`; an unparsable body throws
`protocol`; a rejected fetch throws `network`. -/
def apiCallSettle (aborted : Bool) (f : FetchBehavior) :
    Option ApiOutcome :=
  if aborted then some (Except.error GatewayError.cancelled)
  else
    match f with
    | .resolves ok status statusText body =>
      if !ok then some (Except.error (GatewayError.http status statusText))
      else
        match body with
        | some data => some (Except.ok data)
        | none => some (Except.error (GatewayError.protocol "Unexpected end of JSON input"))
    | .rejects msg => some (Except.error (GatewayError.network msg))
    | .neverSettles => none

/-- Helper: a selection passing validation is non-empty (an empty
selection always yields the `msgNoFiles` error). -/
theorem validateFiles_nil_of_empty (files : List JsFile) (maxFiles : Nat)
    (h : files.length = 0) : validateFiles files maxFiles = [msgNoFiles] := by
  unfold validateFiles
  rw [if_pos h]

/-- C1: for every upload whose gateway call succeeds (`success: true`),
the stored session and conversation history afterwards are exactly the
`session` and `conversation_history` fields of that server response
(never a mix of old and new: the result does not depend on the prior
state `st` at all). -/
theorem upload_success_adopts_server_state
    (files : List JsFile) (st : ChatState) (r : ServerResponse)
    (hist : List ConversationEntry)
    (hv : validateFiles files CONFIG.maxFiles = [])
    (hs : r.success = true)
    (hh : r.result.conversation_history = some hist) :
    (handleDocumentUpload files st (Except.ok r)).networkCalled = true
    ∧ (handleDocumentUpload files st (Except.ok r)).state.currentChatSession
        = r.result.session
    ∧ (handleDocumentUpload files st (Except.ok r)).state.currentConversationHistory
        = some hist := by
  have hne : ¬ files.length = 0 := by
    intro h0
    rw [validateFiles_nil_of_empty files CONFIG.maxFiles h0] at hv
    exact absurd hv (by simp [msgNoFiles])
  simp [handleDocumentUpload, hne, hv, hs, switchToChatInterface, hh]

/-- Witness for C1 at the spec §8 scenario: uploading `report.pdf` with
a successful response carrying session `"s1"`. -/
theorem upload_success_adopts_server_state_witness :
    (handleDocumentUpload [⟨"report.pdf", 2048⟩] initialChatState
        (Except.ok ⟨true,
          ⟨some "s1", some [ConversationEntry.documentUpload ["report.pdf"]],
            some ["report.pdf"], none⟩, none⟩)).networkCalled = true
    ∧ (handleDocumentUpload [⟨"report.pdf", 2048⟩] initialChatState
        (Except.ok ⟨true,
          ⟨some "s1", some [ConversationEntry.documentUpload ["report.pdf"]],
            some ["report.pdf"], none⟩, none⟩)).state.currentChatSession
        = some "s1"
    ∧ (handleDocumentUpload [⟨"report.pdf", 2048⟩] initialChatState
        (Except.ok ⟨true,
          ⟨some "s1", some [ConversationEntry.documentUpload ["report.pdf"]],
            some ["report.pdf"], none⟩, none⟩)).state.currentConversationHistory
        = some [ConversationEntry.documentUpload ["report.pdf"]] :=
  upload_success_adopts_server_state _ _ _ _ (by decide) rfl rfl

/-- C2: for every upload whose gateway call fails — thrown `GatewayError`
(HTTP, network, cancellation, protocol) or a resolved response with
`success: false` — the session store afterwards equals the store before
the call: no mutation occurs on any failure path. -/
theorem upload_failure_preserves_state
    (files : List JsFile) (st : ChatState) (out : ApiOutcome)
    (hfail : ∀ r, out = Except.ok r → r.success = false) :
    (handleDocumentUpload files st out).state = st := by
  cases out with
  | error e =>
    simp only [handleDocumentUpload]
    split_ifs <;> rfl
  | ok r =>
    have hr : r.success = false := hfail r rfl
    simp only [handleDocumentUpload, hr]
    split_ifs <;> simp_all

/-- Witness for C2: a cancelled upload of `report.pdf` leaves the store
untouched. -/
theorem upload_failure_preserves_state_witness :
    (handleDocumentUpload [⟨"report.pdf", 2048⟩] ⟨some "s0", some []⟩
        (Except.error GatewayError.cancelled)).state = ⟨some "s0", some []⟩ :=
  upload_failure_preserves_state _ _ _ (fun _ h => nomatch h)

/-- C3 (code bug): `CONFIG.apiTimeout` is declared as 30000 ms but is
referenced nowhere in `main.js`; `apiCall` attaches only the abort
signal to `fetch` and starts no timer, so a fetch that never receives a
response leaves the call pending forever (`apiCallSettle` yields no
settlement) instead of settling as a `Network`-class failure when the
configured timeout expires. -/
theorem apiCall_has_no_timeout :
    CONFIG.apiTimeout = 30000
    ∧ apiCallSettle false FetchBehavior.neverSettles = none :=
  ⟨rfl, rfl⟩

/-- C4 counterexample: an upload whose gateway call settles as Cancelled
produces a user-facing error toast — `apiCall` rewraps the AbortError as
`Error('Request was cancelled')` and `handleDocumentUpload`'s catch block
passes `error.message` to `Toast.error` — contradicting the claim that
no user-facing notification is produced for a cancelled call. -/
theorem cancelled_upload_produces_notification :
    (handleDocumentUpload [⟨"report.pdf", 2048⟩] initialChatState
        (Except.error GatewayError.cancelled)).notifications
      = [Toast.error "Request was cancelled"] := by decide

/-- C4 amended: a cancelled gateway call surfaces to the user as an
error toast with message "Request was cancelled" in both
`handleDocumentUpload` and `sendChatMessage`; only `loadExistingSession`
swallows thrown errors (cancellation included) with diagnostic logging
alone, emitting no notification. -/
theorem cancelled_call_notification_behaviour
    (files : List JsFile) (st st2 : ChatState) (input : String)
    (hv : validateFiles files CONFIG.maxFiles = [])
    (hq : ¬ jsTrim input = "")
    (hs : jsTruthy st2.currentChatSession = true) :
    (handleDocumentUpload files st
        (Except.error GatewayError.cancelled)).notifications
      = [Toast.error "Request was cancelled"]
    ∧ (sendChatMessage input st2
        (Except.error GatewayError.cancelled)).notifications
      = [Toast.error "Request was cancelled"]
    ∧ ∀ e : GatewayError, (loadExistingSession st (Except.error e)).2 = [] := by
  have hne : ¬ files.length = 0 := by
    intro h0
    rw [validateFiles_nil_of_empty files CONFIG.maxFiles h0] at hv
    exact absurd hv (by simp [msgNoFiles])
  refine ⟨?_, ?_, fun e => rfl⟩
  · simp [handleDocumentUpload, hne, hv, GatewayError.message, jsStrOr]
  · simp [sendChatMessage, hq, hs, GatewayError.message, jsStrOr]

/-- Witness for the amended C4: concrete cancelled upload, cancelled chat
turn, and cancelled recovery call. -/
theorem cancelled_call_notification_behaviour_witness :
    (handleDocumentUpload [⟨"report.pdf", 2048⟩] initialChatState
        (Except.error GatewayError.cancelled)).notifications
      = [Toast.error "Request was cancelled"]
    ∧ (sendChatMessage "What is the termination clause?" ⟨some "s1", some []⟩
        (Except.error GatewayError.cancelled)).notifications
      = [Toast.error "Request was cancelled"]
    ∧ ∀ e : GatewayError,
        (loadExistingSession initialChatState (Except.error e)).2 = [] :=
  cancelled_call_notification_behaviour _ initialChatState _ _
    (by decide) (by decide) (by decide)

/-- Helper: after `Map.set m k v`, `k` is among the map's keys. -/
theorem mem_keys_mapSet (m : AbortMap) (k : String) (v : Nat) :
    k ∈ (mapSet m k v).map Prod.fst := by
  unfold mapSet
  split
  · rename_i h
    have hk : k ∈ m.map Prod.fst := by
      simpa using h
    obtain ⟨p, hp, hfst⟩ := List.mem_map.mp hk
    refine List.mem_map.mpr ⟨(k, v), List.mem_map.mpr ⟨p, hp, ?_⟩, rfl⟩
    simp [hfst]
  · simp

/-- Helper: `Map.delete m k` leaves no entry keyed `k`. -/
theorem not_mem_keys_mapDelete (m : AbortMap) (k : String) :
    k ∉ (mapDelete m k).map Prod.fst := by
  intro hk
  obtain ⟨p, hp, hfst⟩ := List.mem_map.mp hk
  have := (List.mem_filter.mp hp).2
  simp [hfst] at this

/-- Helper: `Map.set` when the key is already present replaces in
place. -/
theorem mapSet_of_contains (m : AbortMap) (k : String) (v : Nat)
    (h : (m.map Prod.fst).contains k) :
    mapSet m k v = m.map (fun p => if p.1 = k then (k, v) else p) := by
  unfold mapSet
  rw [if_pos h]

/-- Helper: `Map.set` when the key is absent appends. -/
theorem mapSet_of_not_contains (m : AbortMap) (k : String) (v : Nat)
    (h : ¬ (m.map Prod.fst).contains k) :
    mapSet m k v = m ++ [(k, v)] := by
  unfold mapSet
  rw [if_neg h]

/-- Helper: setting the same key twice keeps only the second value — the
first registration is overwritten without trace. -/
theorem mapSet_mapSet (m : AbortMap) (k : String) (v w : Nat) :
    mapSet (mapSet m k v) k w = mapSet m k w := by
  by_cases h : (m.map Prod.fst).contains k
  · have hc : ((mapSet m k v).map Prod.fst).contains k := by
      simpa using mem_keys_mapSet m k v
    rw [mapSet_of_contains m k v h] at hc ⊢
    rw [mapSet_of_contains _ k w hc, mapSet_of_contains m k w h, List.map_map]
    have hcomp :
        ((fun p : String × Nat => if p.1 = k then (k, w) else p) ∘
          (fun p : String × Nat => if p.1 = k then (k, v) else p)) =
        fun p : String × Nat => if p.1 = k then (k, w) else p := by
      funext p
      by_cases hpk : p.1 = k <;> simp [hpk]
    rw [hcomp]
  · have hnone : ∀ p ∈ m, ¬ p.1 = k := by
      intro p hp hpk
      exact h (by simpa using List.mem_map.mpr ⟨p, hp, hpk⟩)
    rw [mapSet_of_not_contains m k v h]
    have hc2 : (((m ++ [(k, v)]).map Prod.fst)).contains k := by simp
    rw [mapSet_of_contains _ k w hc2, mapSet_of_not_contains m k w h,
      List.map_append]
    congr 1
    · refine (List.map_congr_left (fun p hp => ?_)).trans (List.map_id m)
      simp [hnone p hp]
    · simp

/-- C5 counterexample: request ids are `Date.now().toString()`, so two
distinct concurrent calls issued in the same millisecond (clock reading
100, controllers 0 and 1) receive the same id, and the second
registration displaces the first: afterwards the pending-request set
holds a single entry, carrying only controller 1 — call 0's cancellation
handle is no longer registered while its call is still pending. -/
theorem same_millisecond_requestId_collision :
    requestId 100 = requestId 100
    ∧ (apiCallRegister (apiCallRegister ⟨[], []⟩ 100 0) 100 1).controllers
        = [("100", 1)] := by decide

/-- C5 amended: every gateway call registers its cancellation handle in
the pending-request set keyed by `Date.now().toString()`, and the entry
under that id is removed unconditionally on settlement — for any
intermediate state, in particular after racing with `cancelAllRequests`
(whose clear already removed it) — but the id is the millisecond clock
value, not a fresh one: a second call in the same millisecond overwrites
the first registration without trace. -/
theorem apiCall_registration_lifecycle
    (g : GatewayState) (now c c2 : Nat) :
    requestId now ∈ (apiCallRegister g now c).controllers.map Prod.fst
    ∧ apiCallRegister (apiCallRegister g now c) now c2 = apiCallRegister g now c2
    ∧ ∀ g' : GatewayState,
        requestId now ∉ (apiCallFinally g' now).controllers.map Prod.fst := by
  refine ⟨mem_keys_mapSet _ _ _, ?_, fun g' => not_mem_keys_mapDelete _ _⟩
  simp only [apiCallRegister, mapSet_mapSet]

/-- Witness for the amended C5 at clock 100 with controllers 0 and 1. -/
theorem apiCall_registration_lifecycle_witness :
    requestId 100 ∈ (apiCallRegister ⟨[], []⟩ 100 0).controllers.map Prod.fst
    ∧ apiCallRegister (apiCallRegister ⟨[], []⟩ 100 0) 100 1
        = apiCallRegister ⟨[], []⟩ 100 1
    ∧ ∀ g' : GatewayState,
        requestId 100 ∉ (apiCallFinally g' 100).controllers.map Prod.fst :=
  apiCall_registration_lifecycle ⟨[], []⟩ 100 0 1

/-- C6 counterexample: with two calls registered in the same millisecond
(clock 100, controllers 0 and 1), `cancelAllRequests` aborts only
controller 1 — the sole entry left in the map — and clears the set; call
0, which was pending at that moment, is not aborted, and when its fetch
later resolves with a 2xx envelope it settles as success, not as
Cancelled, contradicting the claim that every call pending at that
moment settles as Cancelled. -/
theorem cancelAllRequests_misses_displaced_call :
    (cancelAllRequests (apiCallRegister (apiCallRegister ⟨[], []⟩ 100 0) 100 1)).aborted
      = [1]
    ∧ (cancelAllRequests (apiCallRegister (apiCallRegister ⟨[], []⟩ 100 0) 100 1)).controllers
      = []
    ∧ apiCallSettle
        ((cancelAllRequests
            (apiCallRegister (apiCallRegister ⟨[], []⟩ 100 0) 100 1)).aborted.contains 0)
        (FetchBehavior.resolves true 200 "OK"
          (some ⟨true, ⟨some "s1", some [], none, none⟩, none⟩))
      = some (Except.ok ⟨true, ⟨some "s1", some [], none, none⟩, none⟩) :=
  ⟨rfl, rfl, rfl⟩

/-- C6 amended: after `cancelAllRequests()` the pending-request set is
empty, every controller that was registered in the set at that moment is
aborted, and an aborted call settles as Cancelled whatever its fetch
does; a pending call whose registration was displaced by a
same-millisecond id collision is not covered and settles according to
its own fetch outcome. -/
theorem cancelAllRequests_aborts_registered (g : GatewayState) :
    (cancelAllRequests g).controllers = []
    ∧ (∀ c, c ∈ g.controllers.map Prod.snd → c ∈ (cancelAllRequests g).aborted)
    ∧ ∀ f : FetchBehavior,
        apiCallSettle true f = some (Except.error GatewayError.cancelled) := by
  refine ⟨rfl, ?_, fun f => rfl⟩
  intro c hc
  simp only [cancelAllRequests, List.mem_append]
  exact Or.inr hc

/-- Witness for the amended C6: one registered controller is aborted and
its call settles as Cancelled. -/
theorem cancelAllRequests_aborts_registered_witness :
    (cancelAllRequests ⟨[("100", 7)], []⟩).controllers = []
    ∧ 7 ∈ (cancelAllRequests ⟨[("100", 7)], []⟩).aborted
    ∧ apiCallSettle true FetchBehavior.neverSettles
        = some (Except.error GatewayError.cancelled) :=
  ⟨(cancelAllRequests_aborts_registered ⟨[("100", 7)], []⟩).1,
   (cancelAllRequests_aborts_registered ⟨[("100", 7)], []⟩).2.1 7 (by decide),
   (cancelAllRequests_aborts_registered ⟨[("100", 7)], []⟩).2.2 FetchBehavior.neverSettles⟩

/-- C7: a question that is empty after trimming, or a submission while no
session is active, makes `sendChatMessage` fail locally: no network call
is issued, the session store is untouched, no chat bubble is appended,
and exactly one notification is shown (a warning for the empty question,
an error for the missing session). -/
theorem sendChatMessage_local_guards
    (input : String) (st : ChatState) (out : ApiOutcome)
    (h : jsTrim input = "" ∨ st.currentChatSession = none) :
    (sendChatMessage input st out).networkCalled = false
    ∧ (sendChatMessage input st out).state = st
    ∧ ((sendChatMessage input st out).notifications
          = [Toast.warning "Please enter a question"]
        ∨ (sendChatMessage input st out).notifications
          = [Toast.error "Please upload documents first"])
    ∧ (sendChatMessage input st out).chatMessages = [] := by
  rcases h with h | h
  · simp [sendChatMessage, h]
  · by_cases hq : jsTrim input = ""
    · simp [sendChatMessage, hq]
    · simp [sendChatMessage, hq, h, jsTruthy]

/-- Witness for C7: a whitespace-only question, and a question with no
active session, both fail locally. -/
theorem sendChatMessage_local_guards_witness :
    ((sendChatMessage "   " ⟨some "s1", some []⟩
        (Except.error GatewayError.cancelled)).networkCalled = false
    ∧ (sendChatMessage "   " ⟨some "s1", some []⟩
        (Except.error GatewayError.cancelled)).state = ⟨some "s1", some []⟩
    ∧ ((sendChatMessage "   " ⟨some "s1", some []⟩
          (Except.error GatewayError.cancelled)).notifications
          = [Toast.warning "Please enter a question"]
        ∨ (sendChatMessage "   " ⟨some "s1", some []⟩
          (Except.error GatewayError.cancelled)).notifications
          = [Toast.error "Please upload documents first"])
    ∧ (sendChatMessage "   " ⟨some "s1", some []⟩
        (Except.error GatewayError.cancelled)).chatMessages = [])
    ∧ (sendChatMessage "Hello" initialChatState
        (Except.error GatewayError.cancelled)).networkCalled = false :=
  ⟨sendChatMessage_local_guards "   " ⟨some "s1", some []⟩ _ (Or.inl (by decide)),
   (sendChatMessage_local_guards "Hello" initialChatState _ (Or.inr rfl)).1⟩

/-- Helper: the error list one file contributes has exactly one entry per
violated rule (size, extension, zero-byte). -/
theorem fileErrors_length (f : JsFile) :
    (fileErrors f).length =
      (if f.size > CONFIG.maxFileSize then 1 else 0) +
      (if CONFIG.allowedFileTypes.contains (fileExtension f.name) then 0 else 1) +
      (if f.size = 0 then 1 else 0) := by
  unfold fileErrors
  split_ifs <;> simp

/-- C8: for every selection — the empty one included — `validateFiles`
returns exactly one error per violated rule, all collected together: one
for the violated non-empty rule (the only rule an empty selection can
violate, and the only one the short-circuit reports), one for the
violated count rule, and one per file for each violated size, extension
and zero-byte rule; and whenever `validateFiles` is non-empty,
`handleDocumentUpload` returns before issuing the network call. -/
theorem validateFiles_one_error_per_violation
    (files : List JsFile) (st : ChatState) (out : ApiOutcome) :
    (validateFiles files CONFIG.maxFiles).length =
      (if files.length = 0 then 1 else 0) +
      (if files.length > CONFIG.maxFiles then 1 else 0) +
      (files.map (fun f =>
        (if f.size > CONFIG.maxFileSize then 1 else 0) +
        (if CONFIG.allowedFileTypes.contains (fileExtension f.name) then 0 else 1) +
        (if f.size = 0 then 1 else 0))).sum
    ∧ (¬ validateFiles files CONFIG.maxFiles = [] →
        (handleDocumentUpload files st out).networkCalled = false) := by
  constructor
  · by_cases h0 : files.length = 0
    · have he : files = [] := List.length_eq_zero.mp h0
      subst he
      simp [validateFiles]
    · unfold validateFiles
      simp only [if_neg h0]
      rw [Nat.zero_add, List.length_append]
      congr 1
      · split_ifs <;> simp
      · rw [List.length_flatMap]
        congr 1
        exact List.map_congr_left (fun f _ => fileErrors_length f)
  · intro herr
    unfold handleDocumentUpload
    split
    · rfl
    · rw [if_pos (List.length_pos.mpr herr)]

/-- Witness for C8: the empty selection yields exactly its one non-empty
rule error with no network call, and a selection with one zero-byte
`.exe` file yields exactly its two per-file errors with no network
call. -/
theorem validateFiles_one_error_per_violation_witness :
    (validateFiles [] CONFIG.maxFiles).length =
      (if ([] : List JsFile).length = 0 then 1 else 0) +
      (if ([] : List JsFile).length > CONFIG.maxFiles then 1 else 0) +
      (([] : List JsFile).map (fun f =>
        (if f.size > CONFIG.maxFileSize then 1 else 0) +
        (if CONFIG.allowedFileTypes.contains (fileExtension f.name) then 0 else 1) +
        (if f.size = 0 then 1 else 0))).sum
    ∧ (handleDocumentUpload [] initialChatState
        (Except.error GatewayError.cancelled)).networkCalled = false
    ∧ (validateFiles [⟨"virus.exe", 0⟩] CONFIG.maxFiles).length =
      (if ([⟨"virus.exe", 0⟩] : List JsFile).length = 0 then 1 else 0) +
      (if ([⟨"virus.exe", 0⟩] : List JsFile).length > CONFIG.maxFiles then 1 else 0) +
      (([⟨"virus.exe", 0⟩] : List JsFile).map (fun f =>
        (if f.size > CONFIG.maxFileSize then 1 else 0) +
        (if CONFIG.allowedFileTypes.contains (fileExtension f.name) then 0 else 1) +
        (if f.size = 0 then 1 else 0))).sum
    ∧ (handleDocumentUpload [⟨"virus.exe", 0⟩] initialChatState
        (Except.error GatewayError.cancelled)).networkCalled = false :=
  ⟨(validateFiles_one_error_per_violation [] initialChatState
      (Except.error GatewayError.cancelled)).1,
   (validateFiles_one_error_per_violation [] initialChatState
      (Except.error GatewayError.cancelled)).2 (by decide),
   (validateFiles_one_error_per_violation [⟨"virus.exe", 0⟩] initialChatState
      (Except.error GatewayError.cancelled)).1,
   (validateFiles_one_error_per_violation [⟨"virus.exe", 0⟩] initialChatState
      (Except.error GatewayError.cancelled)).2 (by decide)⟩

/-- C9: `clearChatSession` with the confirmation prompt declined issues
no network call whatever the state; with the prompt accepted on an
active session, a successful gateway call resets the store — the session
becomes `null` and the history becomes empty. -/
theorem clearChatSession_confirmation_spec
    (st stA : ChatState) (out : ApiOutcome) (r : ServerResponse)
    (hA : jsTruthy stA.currentChatSession = true)
    (hr : r.success = true) :
    (clearChatSession st false out).networkCalled = false
    ∧ (clearChatSession stA true (Except.ok r)).networkCalled = true
    ∧ (clearChatSession stA true (Except.ok r)).state.currentChatSession = none
    ∧ (clearChatSession stA true (Except.ok r)).state.currentConversationHistory
        = some [] := by
  refine ⟨?_, ?_, ?_, ?_⟩
  · cases hb : jsTruthy st.currentChatSession <;> simp [clearChatSession, hb]
  · simp [clearChatSession, hA, hr]
  · simp [clearChatSession, hA, hr, resetChatInterface]
  · simp [clearChatSession, hA, hr, resetChatInterface]

/-- Witness for C9: declining leaves the store alone with no call;
confirming on session `"s1"` with a successful response clears it. -/
theorem clearChatSession_confirmation_spec_witness :
    (clearChatSession ⟨some "s1", some []⟩ false
        (Except.ok ⟨true, ⟨none, none, none, none⟩, none⟩)).networkCalled = false
    ∧ (clearChatSession ⟨some "s1", some []⟩ true
        (Except.ok ⟨true, ⟨none, none, none, none⟩, none⟩)).networkCalled = true
    ∧ (clearChatSession ⟨some "s1", some []⟩ true
        (Except.ok ⟨true, ⟨none, none, none, none⟩, none⟩)).state.currentChatSession
        = none
    ∧ (clearChatSession ⟨some "s1", some []⟩ true
        (Except.ok ⟨true, ⟨none, none, none, none⟩,
          none⟩)).state.currentConversationHistory = some [] :=
  clearChatSession_confirmation_spec ⟨some "s1", some []⟩ ⟨some "s1", some []⟩
    (Except.ok ⟨true, ⟨none, none, none, none⟩, none⟩)
    ⟨true, ⟨none, none, none, none⟩, none⟩ (by decide) rfl

/-- C10: the extension rule compares the lowercased text after the final
dot of the file name against `CONFIG.allowedFileTypes`, so any file
whose extension differs from an allowed one only in letter case passes
it: its `fileErrors` contain no extension error, only the size-rule
errors that apply. -/
theorem extension_check_is_case_insensitive
    (f : JsFile)
    (hext : CONFIG.allowedFileTypes.contains
        (String.mk ('.' ::
          ((jsSplitDot f.name.data).getLastD []).map Char.toLower)) = true) :
    fileErrors f =
      (if f.size > CONFIG.maxFileSize then [msgTooLarge f.name] else []) ++
      (if f.size = 0 then [msgEmptyFile f.name] else []) := by
  unfold fileErrors
  rw [show CONFIG.allowedFileTypes.contains (fileExtension f.name) = true from hext]
  simp

/-- Witness for C10: `brief.PDF` and `notes.Txt` pass the extension rule
and validate cleanly at reasonable sizes. -/
theorem extension_check_is_case_insensitive_witness :
    fileErrors ⟨"brief.PDF", 2048⟩ =
      (if (2048 : Nat) > CONFIG.maxFileSize then [msgTooLarge "brief.PDF"] else []) ++
      (if (2048 : Nat) = 0 then [msgEmptyFile "brief.PDF"] else [])
    ∧ fileErrors ⟨"notes.Txt", 64⟩ =
      (if (64 : Nat) > CONFIG.maxFileSize then [msgTooLarge "notes.Txt"] else []) ++
      (if (64 : Nat) = 0 then [msgEmptyFile "notes.Txt"] else []) :=
  ⟨extension_check_is_case_insensitive ⟨"brief.PDF", 2048⟩ (by decide),
   extension_check_is_case_insensitive ⟨"notes.Txt", 64⟩ (by decide)⟩

end Kanoon
